import Mathlib

/-!
Shallow embedding of the Deriv trading session manager
(`src/utils/derivTrading.ts`) and of the tool-call dispatcher case for
MT5 position modification (`src/App.tsx`, case `mt5_modify_position`).

Modelling conventions:
* JS numbers are modelled as `Rat` (they are only copied and compared for
  truthiness/equality; no floating-point arithmetic occurs in the embedded
  code paths).  JS truthiness of a possibly-`undefined` number/string is
  `jsTruthyNum` / `jsTruthyStr`; `a || d` is `jsOrNum` / `jsOrStr`.
* A possibly-absent (`undefined`) field is an `Option`.
* The event-driven mutable service object becomes an explicit
  `ServiceState` with one pure step function per handler
  (`onmessage`, per-request timeout callback, `onopen`, `onclose`,
  `onerror`, `disconnect`, and the bookkeeping part of `sendRequest`).
  Settling a deferred result (`resolve` / `reject`) is recorded as an
  emitted `SettleEvent`; fan-out to subscribers is recorded in the
  `delivered` log.
* Rejected promises carry their `Error` message as a `String`; an
  operation awaiting `sendRequest` sees `Except.error msg` for any
  rejection (connect failure, timeout, or an inbound frame with an
  `error` payload, whose `message` the `onmessage` handler passes
  through) and `Except.ok reply` for a resolved reply frame.
-/

namespace DerivTrading

/-- JS truthiness of a possibly-undefined number (`undefined` and `0` are falsy). -/
def jsTruthyNum (x : Option Rat) : Bool :=
  match x with
  | none => false
  | some v => v ≠ 0

/-- JS truthiness of a possibly-undefined string (`undefined` and `""` are falsy). -/
def jsTruthyStr (x : Option String) : Bool :=
  match x with
  | none => false
  | some v => v ≠ ""

/-- JS `x || d` for a possibly-undefined number. -/
def jsOrNum (x : Option Rat) (d : Rat) : Rat :=
  if jsTruthyNum x then x.getD d else d

/-- JS `x || d` for a possibly-undefined string. -/
def jsOrStr (x : Option String) (d : String) : String :=
  if jsTruthyStr x then x.getD d else d

/-- JS `x || d` for a possibly-undefined boolean. -/
def jsOrBool (x : Option Bool) (d : Bool) : Bool :=
  match x with
  | some b => if b then b else d
  | none => d

/-- JS `a || b` where both sides may be undefined strings. -/
def jsOrStrOpt (a b : Option String) : Option String :=
  if jsTruthyStr a then a else b

/-- JS `a || b` where both sides may be undefined numbers. -/
def jsOrNumOpt (a b : Option Rat) : Option Rat :=
  if jsTruthyNum a then a else b

/-- An inbound wire frame as seen by the `onmessage` handler: a `req_id`
(`0` models a missing/falsy id; real ids start at 1) and an optional
`error` payload, represented by its `message`. -/
structure InMessage where
  req_id : Nat
  errorMsg : Option String
  deriving DecidableEq

/-- A settlement of a pending request's deferred result:
`resolve(data)` or `reject(new Error(msg))`. -/
inductive SettleEvent where
  | resolved (id : Nat)
  | rejected (id : Nat) (msg : String)
  deriving DecidableEq

/-- The id the settlement is for. -/
def SettleEvent.reqId : SettleEvent → Nat
  | .resolved i => i
  | .rejected i _ => i

/-- The mutable fields of `DerivTradingService` that the claims concern,
plus two histories: `assigned` logs every id handed out by
`getNextRequestId` inside `sendRequest`, `scheduledDelays` logs the delay
of every reconnect `setTimeout` armed by `attemptReconnect`, and
`delivered` logs every message fanned out to the subscriber set. -/
structure ServiceState where
  requestId : Nat
  pending : List Nat
  assigned : List Nat
  isConnected : Bool
  reconnectAttempts : Nat
  scheduledDelays : List Nat
  delivered : List InMessage
  deriving DecidableEq

/-- `maxReconnectAttempts = 5` in the source. -/
def maxReconnectAttempts : Nat := 5

/-- The reconnect base delay: `setTimeout(() => this.connect(), 3000 * this.reconnectAttempts)`. -/
def baseDelay : Nat := 3000

/-- Field initializers of `DerivTradingService`. -/
def initialState : ServiceState :=
  { requestId := 0, pending := [], assigned := [], isConnected := false,
    reconnectAttempts := 0, scheduledDelays := [], delivered := [] }

/-- The bookkeeping part of `sendRequest`: `getNextRequestId` returns
`++this.requestId`, the record is stored under that id, and the id is
attached to the outbound frame (logged in `assigned`). -/
def sendStep (s : ServiceState) : ServiceState :=
  let reqId := s.requestId + 1
  { s with requestId := reqId,
           pending := s.pending ++ [reqId],
           assigned := s.assigned ++ [reqId] }

/-- The `ws.onmessage` handler: if the frame carries a truthy `req_id`
matching a pending record, the record is deleted and then its deferred
result is rejected (when the frame has an `error` payload) or resolved;
in every case the frame is then fanned out to all message handlers. -/
def messageStep (s : ServiceState) (m : InMessage) : ServiceState × List SettleEvent :=
  if m.req_id ≠ 0 ∧ m.req_id ∈ s.pending then
    ({ s with pending := s.pending.erase m.req_id,
              delivered := s.delivered ++ [m] },
     [match m.errorMsg with
      | some e => SettleEvent.rejected m.req_id e
      | none => SettleEvent.resolved m.req_id])
  else
    ({ s with delivered := s.delivered ++ [m] }, [])

/-- The 30-second timeout callback armed by `sendRequest` for id `i`:
it rejects with `Request timeout` only if the pending record is still
present, deleting it first. -/
def timeoutStep (s : ServiceState) (i : Nat) : ServiceState × List SettleEvent :=
  if i ∈ s.pending then
    ({ s with pending := s.pending.erase i },
     [SettleEvent.rejected i "Request timeout"])
  else
    (s, [])

/-- `attemptReconnect`: below the attempt cap, increment the counter and
arm a reconnect timer with delay `3000 * reconnectAttempts` (the value
after the increment); at the cap, do nothing. -/
def attemptReconnect (s : ServiceState) : ServiceState :=
  if s.reconnectAttempts < maxReconnectAttempts then
    { s with reconnectAttempts := s.reconnectAttempts + 1,
             scheduledDelays := s.scheduledDelays ++ [baseDelay * (s.reconnectAttempts + 1)] }
  else s

/-- The `ws.onopen` handler (its authorization call is a separate `sendStep`). -/
def openStep (s : ServiceState) : ServiceState :=
  { s with isConnected := true, reconnectAttempts := 0 }

/-- The `ws.onclose` handler: mark disconnected, then `attemptReconnect()`
(unconditionally — there is no flag distinguishing an explicit disconnect). -/
def closeStep (s : ServiceState) : ServiceState :=
  attemptReconnect { s with isConnected := false }

/-- The `ws.onerror` handler: only marks the connection not-connected. -/
def errorStep (s : ServiceState) : ServiceState :=
  { s with isConnected := false }

/-- `disconnect()`: drop the transport, mark not-connected and clear the
entire pending map; no deferred result is resolved or rejected, and
neither `requestId` nor `reconnectAttempts` is touched. -/
def disconnectStep (s : ServiceState) : ServiceState :=
  { s with isConnected := false, pending := [] }

/-- One event-loop turn of the service. -/
inductive Step where
  | send
  | recv (m : InMessage)
  | timeout (i : Nat)
  | wsOpen
  | wsClose
  | wsError
  | close
  deriving DecidableEq

/-- Dispatch one step to the handler it models (`Step.close` is an
explicit `disconnect()` call). -/
def step (s : ServiceState) (st : Step) : ServiceState × List SettleEvent :=
  match st with
  | .send => (sendStep s, [])
  | .recv m => messageStep s m
  | .timeout i => timeoutStep s i
  | .wsOpen => (openStep s, [])
  | .wsClose => (closeStep s, [])
  | .wsError => (errorStep s, [])
  | .close => (disconnectStep s, [])

/-- The state after running a sequence of event-loop turns. -/
def runState (s : ServiceState) : List Step → ServiceState
  | [] => s
  | st :: rest => runState (step s st).1 rest

/-- All settlements emitted while running a sequence of event-loop turns. -/
def runEvents (s : ServiceState) : List Step → List SettleEvent
  | [] => []
  | st :: rest => (step s st).2 ++ runEvents (step s st).1 rest

/-- How many of the emitted settlements settle the request with id `i`. -/
def settlesCount (i : Nat) (evs : List SettleEvent) : Nat :=
  (evs.filter (fun e => e.reqId = i)).length

/-- State invariant: the pending map holds no duplicate ids, and every
pending id has already been assigned (it is positive and at most the
current counter value). -/
def Inv (s : ServiceState) : Prop :=
  s.pending.Nodup ∧ ∀ i ∈ s.pending, 1 ≤ i ∧ i ≤ s.requestId

instance (s : ServiceState) : Decidable (Inv s) :=
  inferInstanceAs (Decidable (s.pending.Nodup ∧ ∀ i ∈ s.pending, 1 ≤ i ∧ i ≤ s.requestId))

/-- Request id `i` can never be settled again: it is not pending and the
counter has moved past it, so no later `sendStep` can reintroduce it. -/
def Dead (i : Nat) (s : ServiceState) : Prop :=
  i ∉ s.pending ∧ i ≤ s.requestId

/-- `true` on the steps that model a `sendRequest` id assignment. -/
def Step.isSend : Step → Bool
  | .send => true
  | _ => false

/-! ## Typed trading operations

Each operation is embedded as a pure function of the outcome(s) of its
`sendRequest` call(s).  `Except.error msg` is a rejection of the awaited
promise (connect failure, request timeout, or an inbound reply frame
carrying an `error` payload — the `onmessage` handler rejects with that
payload's `message`); `Except.ok reply` is the resolved reply frame, with
every field the operation reads modelled as an `Option` when the wire may
omit it.  All rejections reaching a `catch` block are `Error` objects, so
`error instanceof Error ? error.message : <fallback>` yields the message. -/

/-- The `error` payload of a reply frame (`data.error`), by its `message`. -/
structure ErrorPayload where
  message : String
  deriving DecidableEq

/-- `AccountInfo` as returned by `getAccountInfo`. -/
structure AccountInfo where
  balance : Rat
  currency : String
  loginid : String
  account_type : String
  is_virtual : Bool
  deriving DecidableEq

/-- The part of a `balance` reply that `getAccountInfo` reads. -/
structure BalanceData where
  balance : Option Rat
  currency : Option String
  deriving DecidableEq

/-- A reply frame to the `{ balance: 1, subscribe: 0 }` request. -/
structure BalanceReply where
  balance : Option BalanceData
  deriving DecidableEq

/-- The part of an `authorize` reply that `getAccountInfo` reads. -/
structure AuthorizeData where
  loginid : Option String
  account_type : Option String
  is_virtual : Option Bool
  deriving DecidableEq

/-- A reply frame to the `{ authorize: <token> }` request. -/
structure AuthorizeReply where
  authorize : Option AuthorizeData
  deriving DecidableEq

/-- `getAccountInfo`: a balance query then an authorize query; any
rejection is caught and turned into `null` (here `none`). -/
def getAccountInfo (r1 : Except String BalanceReply)
    (r2 : Except String AuthorizeReply) : Option AccountInfo :=
  match r1 with
  | .error _ => none
  | .ok response =>
    match r2 with
    | .error _ => none
    | .ok authResponse =>
      some { balance := jsOrNum (response.balance.bind (·.balance)) 0,
             currency := jsOrStr (response.balance.bind (·.currency)) "USD",
             loginid := jsOrStr (authResponse.authorize.bind (·.loginid)) "",
             account_type := jsOrStr (authResponse.authorize.bind (·.account_type)) "",
             is_virtual := jsOrBool (authResponse.authorize.bind (·.is_virtual)) false }

/-- One element of `portfolio.contracts`. -/
structure ContractRaw where
  contract_id : String
  symbol : String
  buy_price : Rat
  current_spot : Rat
  profit : Rat
  contract_type : String
  date_start : Rat
  date_expiry : Option Rat
  deriving DecidableEq

/-- The part of a `portfolio` reply that `getOpenPositions` reads. -/
structure PortfolioData where
  contracts : Option (List ContractRaw)
  deriving DecidableEq

/-- A reply frame to the `{ portfolio: 1 }` request. -/
structure PortfolioReply where
  portfolio : Option PortfolioData
  deriving DecidableEq

/-- `Position` as returned by `getOpenPositions`. -/
structure Position where
  contract_id : String
  symbol : String
  buy_price : Rat
  current_spot : Rat
  profit : Rat
  contract_type : String
  date_start : Rat
  date_expiry : Option Rat
  deriving DecidableEq

/-- `getOpenPositions`: a portfolio query mapped into `Position` values;
any rejection is caught and turned into `[]`. -/
def getOpenPositions (r : Except String PortfolioReply) : List Position :=
  match r with
  | .error _ => []
  | .ok response =>
    ((response.portfolio.bind (·.contracts)).getD []).map fun contract =>
      { contract_id := contract.contract_id,
        symbol := contract.symbol,
        buy_price := contract.buy_price,
        current_spot := contract.current_spot,
        profit := contract.profit,
        contract_type := contract.contract_type,
        date_start := contract.date_start,
        date_expiry := contract.date_expiry }

/-- One element of `active_symbols`, with the fields read anywhere in the service. -/
structure ActiveSymbolRaw where
  symbol : String
  display_name : String
  market : String
  market_type_other : Option String
  submarket : Option String
  deriving DecidableEq

/-- A reply frame to an `active_symbols` request. -/
structure ActiveSymbolsReply where
  active_symbols : Option (List ActiveSymbolRaw)
  deriving DecidableEq

/-- `getAvailableSymbols`: maps `active_symbols` to its `symbol` field;
any rejection is caught and turned into `[]`. -/
def getAvailableSymbols (r : Except String ActiveSymbolsReply) : List String :=
  match r with
  | .error _ => []
  | .ok response => ((response.active_symbols).getD []).map (·.symbol)

/-- The part of a `ticks` reply that `getSymbolPrice` reads. -/
structure TickData where
  quote : Option Rat
  deriving DecidableEq

/-- A reply frame to a `{ ticks: <symbol>, subscribe: 0 }` request. -/
structure TickReply where
  tick : Option TickData
  deriving DecidableEq

/-- `getSymbolPrice`: returns `response.tick?.quote || null` (a zero
quote is falsy and also becomes `null`); any rejection is caught and
turned into `null`. -/
def getSymbolPrice (r : Except String TickReply) : Option Rat :=
  match r with
  | .error _ => none
  | .ok response =>
    match response.tick.bind (·.quote) with
    | some q => if q = 0 then none else some q
    | none => none

/-- The contract-type literals accepted by `buyContract`. -/
inductive ContractType where
  | CALL | PUT | DIGITOVER | DIGITUNDER | DIGITDIFF | DIGITMATCH
  | DIGITODD | DIGITEVEN | ONETOUCH | NOTOUCH | EXPIRYMISS | EXPIRYRANGE
  deriving DecidableEq

/-- The duration-unit literals accepted by `buyContract`. -/
inductive DurationUnit where
  | s | m | h | d | t
  deriving DecidableEq

/-- The basis literals accepted by `buyContract`. -/
inductive Basis where
  | stake | payout
  deriving DecidableEq

/-- The parameter record of `buyContract`. -/
structure BuyContractParams where
  symbol : String
  contract_type : ContractType
  amount : Rat
  duration : Rat
  duration_unit : DurationUnit
  basis : Option Basis
  barrier : Option String
  deriving DecidableEq

/-- The outbound `proposal` frame built by `buyContract` (minus `req_id`,
which `sendRequest` attaches; `proposal: 1` and `currency: USD` are
constants). -/
structure ProposalFrame where
  amount : Rat
  basis : Basis
  contract_type : ContractType
  currency : String
  duration : Rat
  duration_unit : DurationUnit
  symbol : String
  barrier : Option String
  deriving DecidableEq

/-- The `proposal` frame `buyContract` sends for `params`. -/
def proposalFrame (params : BuyContractParams) : ProposalFrame :=
  { amount := params.amount,
    basis := params.basis.getD .stake,
    contract_type := params.contract_type,
    currency := "USD",
    duration := params.duration,
    duration_unit := params.duration_unit,
    symbol := params.symbol,
    barrier := params.barrier }

/-- The part of a `proposal` reply that `buyContract` reads. -/
structure ProposalData where
  id : String
  deriving DecidableEq

/-- A reply frame to a `proposal` request. -/
structure ProposalReply where
  error : Option ErrorPayload
  proposal : Option ProposalData
  deriving DecidableEq

/-- The part of a `buy` reply that `buyContract` reads. -/
structure BuyData where
  contract_id : Option String
  buy_price : Option Rat
  deriving DecidableEq

/-- A reply frame to a `buy` request. -/
structure BuyReply where
  buy : Option BuyData
  deriving DecidableEq

/-- `TradeResponse` as returned by `buyContract` / `sellContract`. -/
structure TradeResponse where
  success : Bool
  contract_id : Option String := none
  buy_price : Option Rat := none
  error : Option String := none
  deriving DecidableEq

/-- An outbound frame sent by `buyContract`. -/
inductive OutboundFrame where
  | proposalReq (f : ProposalFrame)
  | buyReq (proposalId : String) (price : Rat)
  deriving DecidableEq

/-- `true` on `buy` frames. -/
def OutboundFrame.isBuy : OutboundFrame → Bool
  | .buyReq _ _ => true
  | _ => false

/-- Outcome of one `sendRequest` call, distinguishing whether the frame
went out on the wire: `notSent` is a rejection before the frame was
written (the `connect()` awaited inside `sendRequest` failed); `sent` is
a written frame whose awaited promise later resolved or rejected. -/
inductive SendOutcome (α : Type) where
  | notSent (msg : String)
  | sent (result : Except String α)

/-- The message of the `TypeError` thrown when `buyContract` reads
`proposalResponse.proposal.id` and `proposal` is absent; its exact text
is host-defined (it comes from the JS engine, not from this code). -/
def undefinedIdErrorMsg : String := "Cannot read properties of undefined"

/-- `buyContract`: first a `proposal` request; on an error payload it
short-circuits with a failure result; otherwise exactly one `buy`
request with the proposal's `id` and `price: params.amount`.  Every
rejection is caught and turned into `{ success: false, error }`.  Also
returns the list of outbound frames actually written. -/
def buyContract (params : BuyContractParams)
    (proposalOutcome : SendOutcome ProposalReply)
    (buyOutcome : SendOutcome BuyReply) :
    TradeResponse × List OutboundFrame :=
  match proposalOutcome with
  | .notSent msg => ({ success := false, error := some msg }, [])
  | .sent (.error msg) =>
      ({ success := false, error := some msg }, [.proposalReq (proposalFrame params)])
  | .sent (.ok proposalResponse) =>
    match proposalResponse.error with
    | some err =>
        ({ success := false, error := some err.message },
         [.proposalReq (proposalFrame params)])
    | none =>
      match proposalResponse.proposal with
      | none =>
          ({ success := false, error := some undefinedIdErrorMsg },
           [.proposalReq (proposalFrame params)])
      | some prop =>
        match buyOutcome with
        | .notSent msg =>
            ({ success := false, error := some msg },
             [.proposalReq (proposalFrame params)])
        | .sent (.error msg) =>
            ({ success := false, error := some msg },
             [.proposalReq (proposalFrame params),
              .buyReq prop.id params.amount])
        | .sent (.ok buyResponse) =>
            ({ success := true,
               contract_id := buyResponse.buy.bind (·.contract_id),
               buy_price := buyResponse.buy.bind (·.buy_price) },
             [.proposalReq (proposalFrame params),
              .buyReq prop.id params.amount])

/-- The part of a `sell` reply that `sellContract` reads. -/
structure SellData where
  contract_id : Option String
  sold_for : Option Rat
  deriving DecidableEq

/-- A reply frame to a `sell` request. -/
structure SellReply where
  sell : Option SellData
  deriving DecidableEq

/-- The outbound `sell` frame (`price || 0`). -/
structure SellFrame where
  sell : String
  price : Rat
  deriving DecidableEq

/-- The frame `sellContract` sends. -/
def sellRequest (contractId : String) (price : Option Rat) : SellFrame :=
  { sell := contractId, price := jsOrNum price 0 }

/-- `sellContract` reply handling: any rejection is caught and turned
into `{ success: false, error }`. -/
def sellContract (r : Except String SellReply) : TradeResponse :=
  match r with
  | .error msg => { success := false, error := some msg }
  | .ok response =>
      { success := true,
        contract_id := response.sell.bind (·.contract_id),
        buy_price := response.sell.bind (·.sold_for) }

/-- `MT5Account` as returned by the MT5 account operations. -/
structure MT5Account where
  login : String
  balance : Rat
  leverage : Rat
  server : String
  account_type : String
  name : Option String
  currency : Option String
  display_balance : Option String
  market_type : Option String
  sub_account_type : Option String
  deriving DecidableEq

/-- One element of `mt5_login_list` (fields copied verbatim). -/
structure MT5AccountRaw where
  login : String
  balance : Rat
  leverage : Rat
  server : String
  account_type : String
  name : Option String
  currency : Option String
  display_balance : Option String
  market_type : Option String
  sub_account_type : Option String
  deriving DecidableEq

/-- A reply frame to a `{ mt5_login_list: 1 }` request. -/
structure MT5LoginListReply where
  mt5_login_list : Option (List MT5AccountRaw)
  deriving DecidableEq

/-- `getMT5Accounts`: maps `mt5_login_list` into `MT5Account` values;
any rejection is caught and turned into `[]`. -/
def getMT5Accounts (r : Except String MT5LoginListReply) : List MT5Account :=
  match r with
  | .error _ => []
  | .ok response =>
    ((response.mt5_login_list).getD []).map fun account =>
      { login := account.login, balance := account.balance,
        leverage := account.leverage, server := account.server,
        account_type := account.account_type, name := account.name,
        currency := account.currency, display_balance := account.display_balance,
        market_type := account.market_type,
        sub_account_type := account.sub_account_type }

/-- The part of an `mt5_get_settings` reply that `getMT5AccountInfo`
reads (`server` may be absent: the code applies `|| ''` to it). -/
structure MT5SettingsData where
  login : String
  balance : Rat
  leverage : Rat
  server : Option String
  account_type : String
  name : Option String
  currency : Option String
  display_balance : Option String
  market_type : Option String
  sub_account_type : Option String
  deriving DecidableEq

/-- A reply frame to an `{ mt5_get_settings: 1, login }` request. -/
structure MT5SettingsReply where
  mt5_get_settings : Option MT5SettingsData
  deriving DecidableEq

/-- `getMT5AccountInfo`: one settings query; `null` when the reply has no
`mt5_get_settings` field; any rejection is caught and turned into `null`. -/
def getMT5AccountInfo (r : Except String MT5SettingsReply) : Option MT5Account :=
  match r with
  | .error _ => none
  | .ok response =>
    match response.mt5_get_settings with
    | some d =>
        some { login := d.login, balance := d.balance, leverage := d.leverage,
               server := jsOrStr d.server "",
               account_type := d.account_type, name := d.name,
               currency := d.currency, display_balance := d.display_balance,
               market_type := d.market_type,
               sub_account_type := d.sub_account_type }
    | none => none

/-- A reply frame to a `{ trading_servers: 1 }` request (its content is
never read by `getMT5Symbols`). -/
structure TradingServersReply where
  deriving DecidableEq

/-- `MT5Symbol` as returned by `getMT5Symbols` (`market_type` is
`market_type_other || submarket` and may be absent at runtime). -/
structure MT5Symbol where
  symbol : String
  display_name : String
  market : String
  market_type : Option String
  deriving DecidableEq

/-- `getMT5Symbols`: a `trading_servers` query (result unused) then an
`active_symbols: full` query, filtered to synthetic-index / forex /
commodities / stocks entries; any rejection is caught and turned into `[]`. -/
def getMT5Symbols (r1 : Except String TradingServersReply)
    (r2 : Except String ActiveSymbolsReply) : List MT5Symbol :=
  match r1 with
  | .error _ => []
  | .ok _ =>
    match r2 with
    | .error _ => []
    | .ok symbolsResponse =>
      (((symbolsResponse.active_symbols).getD []).filter fun s =>
          s.market_type_other == some "synthetic_index" ||
          s.submarket == some "forex" ||
          s.submarket == some "commodities" ||
          s.submarket == some "stocks").map fun s =>
        { symbol := s.symbol, display_name := s.display_name,
          market := s.market,
          market_type := jsOrStrOpt s.market_type_other s.submarket }

/-- The `action` literals of an MT5 order. -/
inductive TradeAction where
  | buy | sell
  deriving DecidableEq

/-- The `order_type` literals of an MT5 order. -/
inductive OrderType where
  | market | limit | stop
  deriving DecidableEq

/-- The parameter record of `mt5NewOrder`. -/
structure MT5NewOrderParams where
  login : String
  symbol : String
  volume : Rat
  action : TradeAction
  order_type : Option OrderType
  price : Option Rat
  stop_loss : Option Rat
  take_profit : Option Rat
  comment : Option String
  deriving DecidableEq

/-- The outbound `mt5_new_order` frame (minus `req_id` and the constant
`mt5_new_order: 1`); an `Option` field set to `none` is absent from the
frame. -/
structure MT5NewOrderFrame where
  login : String
  symbol : String
  volume : Rat
  action : TradeAction
  type : OrderType
  price : Option Rat
  stop_loss : Option Rat
  take_profit : Option Rat
  comment : Option String
  deriving DecidableEq

/-- The frame `mt5NewOrder` builds: `type` defaults to `market`; `price`
is added only when truthy and `params.order_type !== 'market'`;
`stop_loss`, `take_profit` and `comment` only when truthy. -/
def mt5NewOrderRequest (params : MT5NewOrderParams) : MT5NewOrderFrame :=
  let base : MT5NewOrderFrame :=
    { login := params.login, symbol := params.symbol,
      volume := params.volume, action := params.action,
      type := params.order_type.getD .market,
      price := none, stop_loss := none, take_profit := none, comment := none }
  let r1 := if jsTruthyNum params.price && !(params.order_type == some .market)
            then { base with price := params.price } else base
  let r2 := if jsTruthyNum params.stop_loss
            then { r1 with stop_loss := params.stop_loss } else r1
  let r3 := if jsTruthyNum params.take_profit
            then { r2 with take_profit := params.take_profit } else r2
  if jsTruthyStr params.comment then { r3 with comment := params.comment } else r3

/-- The part of an `mt5_new_order` reply that `mt5NewOrder` reads
(`order_id` is carried after its `.toString()` coercion). -/
structure MT5NewOrderData where
  order_id : Option String
  ticket : Option Rat
  price : Option Rat
  deriving DecidableEq

/-- A reply frame to an `mt5_new_order` request. -/
structure MT5NewOrderReply where
  error : Option ErrorPayload
  mt5_new_order : Option MT5NewOrderData
  deriving DecidableEq

/-- `MT5TradeResponse` as returned by the MT5 trade operations. -/
structure MT5TradeResponse where
  success : Bool
  order_id : Option String := none
  ticket : Option Rat := none
  price : Option Rat := none
  volume : Option Rat := none
  symbol : Option String := none
  action : Option TradeAction := none
  error : Option String := none
  deriving DecidableEq

/-- `mt5NewOrder` reply handling: an `error` payload or any rejection
becomes `{ success: false, error }`; otherwise a success echo with the
reply's identifiers. -/
def mt5NewOrder (params : MT5NewOrderParams)
    (r : Except String MT5NewOrderReply) : MT5TradeResponse :=
  match r with
  | .error msg => { success := false, error := some msg }
  | .ok response =>
    match response.error with
    | some err =>
        { success := false,
          error := some (jsOrStr (some err.message) "MT5 order failed") }
    | none =>
        { success := true,
          order_id := response.mt5_new_order.bind (·.order_id),
          ticket := response.mt5_new_order.bind (·.ticket),
          price := response.mt5_new_order.bind (·.price),
          volume := some params.volume,
          symbol := some params.symbol,
          action := some params.action }

/-- The outbound `mt5_close_position` frame (`volume` only when truthy:
a partial-close volume of `0` is not sent). -/
structure MT5CloseFrame where
  login : String
  ticket : Rat
  volume : Option Rat
  deriving DecidableEq

/-- The frame `mt5ClosePosition` builds. -/
def mt5CloseRequest (login : String) (ticket : Rat) (volume : Option Rat) :
    MT5CloseFrame :=
  let base : MT5CloseFrame := { login := login, ticket := ticket, volume := none }
  if jsTruthyNum volume then { base with volume := volume } else base

/-- The part of an `mt5_close_position` reply that `mt5ClosePosition`
reads (`order_id` carried after `.toString()`). -/
structure MT5CloseData where
  order_id : Option String
  deriving DecidableEq

/-- A reply frame to an `mt5_close_position` request. -/
structure MT5CloseReply where
  error : Option ErrorPayload
  mt5_close_position : Option MT5CloseData
  deriving DecidableEq

/-- `mt5ClosePosition` reply handling. -/
def mt5ClosePosition (ticket : Rat) (r : Except String MT5CloseReply) :
    MT5TradeResponse :=
  match r with
  | .error msg => { success := false, error := some msg }
  | .ok response =>
    match response.error with
    | some err =>
        { success := false,
          error := some (jsOrStr (some err.message) "Failed to close position") }
    | none =>
        { success := true, ticket := some ticket,
          order_id := response.mt5_close_position.bind (·.order_id) }

/-- The parameter record of `mt5ModifyPosition`. -/
structure MT5ModifyParams where
  login : String
  ticket : Rat
  stop_loss : Option Rat
  take_profit : Option Rat
  deriving DecidableEq

/-- The outbound `mt5_modify_position` frame (minus `req_id` and the
constant `mt5_modify_position: 1`); an `Option` field set to `none` is
absent from the frame. -/
structure MT5ModifyFrame where
  login : String
  ticket : Rat
  stop_loss : Option Rat
  take_profit : Option Rat
  deriving DecidableEq

/-- The frame `mt5ModifyPosition` builds: `stop_loss` is added iff
`params.stop_loss !== undefined` (so an explicit `0` is sent), and
likewise `take_profit`. -/
def mt5ModifyRequest (params : MT5ModifyParams) : MT5ModifyFrame :=
  let base : MT5ModifyFrame :=
    { login := params.login, ticket := params.ticket,
      stop_loss := none, take_profit := none }
  let r1 := if params.stop_loss.isSome
            then { base with stop_loss := params.stop_loss } else base
  if params.take_profit.isSome
  then { r1 with take_profit := params.take_profit } else r1

/-- A reply frame to an `mt5_modify_position` request (only its `error`
field is read). -/
structure MT5ModifyReply where
  error : Option ErrorPayload
  deriving DecidableEq

/-- `mt5ModifyPosition` reply handling. -/
def mt5ModifyPosition (params : MT5ModifyParams)
    (r : Except String MT5ModifyReply) : MT5TradeResponse :=
  match r with
  | .error msg => { success := false, error := some msg }
  | .ok response =>
    match response.error with
    | some err =>
        { success := false,
          error := some (jsOrStr (some err.message) "Failed to modify position") }
    | none => { success := true, ticket := some params.ticket }

/-- One element of `mt5_open_positions` (numeric ids are carried after
their `.toString()` coercion). -/
structure MT5PositionRaw where
  position_id : Option String
  ticket : Option String
  symbol : String
  volume : Rat
  price_open : Option Rat
  open_price : Option Rat
  price_current : Option Rat
  current_price : Option Rat
  profit : Rat
  type : Option Rat
  time_open : Option Rat
  open_time : Option Rat
  sl : Option Rat
  tp : Option Rat
  comment : Option String
  deriving DecidableEq

/-- A reply frame to an `mt5_open_positions` request. -/
structure MT5OpenPositionsReply where
  error : Option ErrorPayload
  mt5_open_positions : Option (List MT5PositionRaw)
  deriving DecidableEq

/-- `MT5Position` as returned by `getMT5OpenPositions` (fields built with
`||` fallbacks may be absent at runtime, hence `Option`). -/
structure MT5Position where
  position_id : Option String
  symbol : String
  volume : Rat
  price_open : Option Rat
  price_current : Option Rat
  profit : Rat
  type : TradeAction
  time_open : Option Rat
  stop_loss : Option Rat
  take_profit : Option Rat
  comment : Option String
  deriving DecidableEq

/-- `getMT5OpenPositions`: one query; an `error` payload or any rejection
becomes `[]`; otherwise each raw position is projected with `||`
fallbacks and `type === 0 ? buy : sell`. -/
def getMT5OpenPositions (r : Except String MT5OpenPositionsReply) :
    List MT5Position :=
  match r with
  | .error _ => []
  | .ok response =>
    match response.error with
    | some _ => []
    | none =>
      ((response.mt5_open_positions).getD []).map fun pos =>
        { position_id := jsOrStrOpt pos.position_id pos.ticket,
          symbol := pos.symbol, volume := pos.volume,
          price_open := jsOrNumOpt pos.price_open pos.open_price,
          price_current := jsOrNumOpt pos.price_current pos.current_price,
          profit := pos.profit,
          type := if pos.type == some (0 : Rat) then .buy else .sell,
          time_open := jsOrNumOpt pos.time_open pos.open_time,
          stop_loss := pos.sl, take_profit := pos.tp,
          comment := pos.comment }

/-- The outbound `mt5_deal_history` frame: `fromTime`/`toTime` model the
wire fields `from`/`to`, computed from the host clock `now` (seconds)
and the `days` parameter. -/
structure MT5DealHistoryFrame where
  login : String
  fromTime : Rat
  toTime : Rat
  deriving DecidableEq

/-- The frame `getMT5TradeHistory` builds: `from = now - days·24·60·60`. -/
def mt5DealHistoryRequest (login : String) (days now : Rat) : MT5DealHistoryFrame :=
  { login := login, fromTime := now - days * (24 * 60 * 60), toTime := now }

/-- A reply frame to an `mt5_deal_history` request; the deal records `α`
are returned without projection. -/
structure MT5DealHistoryReply (α : Type) where
  mt5_deal_history : Option (List α)
  deriving DecidableEq

/-- `getMT5TradeHistory`: returns the raw deal list (`|| []`); any
rejection is caught and turned into `[]`. -/
def getMT5TradeHistory (α : Type) (r : Except String (MT5DealHistoryReply α)) :
    List α :=
  match r with
  | .error _ => []
  | .ok response => (response.mt5_deal_history).getD []

/-- The part of a `statement` reply that `getTransactionHistory` reads;
the transaction records `α` are returned without projection. -/
structure StatementData (α : Type) where
  transactions : Option (List α)
  deriving DecidableEq

/-- A reply frame to a `{ statement: 1, description: 1, limit }` request. -/
structure StatementReply (α : Type) where
  statement : Option (StatementData α)
  deriving DecidableEq

/-- `getTransactionHistory`: returns `statement?.transactions || []`;
any rejection is caught and turned into `[]`. -/
def getTransactionHistory (α : Type) (r : Except String (StatementReply α)) :
    List α :=
  match r with
  | .error _ => []
  | .ok response => ((response.statement.bind (·.transactions))).getD []

/-- The part of a `profit_table` reply that `getProfitTable` reads. -/
structure ProfitTableData (α : Type) where
  transactions : Option (List α)
  deriving DecidableEq

/-- A reply frame to a `{ profit_table: 1, description: 1, limit, sort }` request. -/
structure ProfitTableReply (α : Type) where
  profit_table : Option (ProfitTableData α)
  deriving DecidableEq

/-- `getProfitTable`: returns `profit_table?.transactions || []`; any
rejection is caught and turned into `[]`. -/
def getProfitTable (α : Type) (r : Except String (ProfitTableReply α)) :
    List α :=
  match r with
  | .error _ => []
  | .ok response => ((response.profit_table.bind (·.transactions))).getD []

/-! ## Tool-call dispatcher: the `mt5_modify_position` case (`src/App.tsx`)

The dispatcher coerces the tool arguments (`String(args.login || '')`,
`Number(args.ticket || 0)`, `args.stop_loss ? Number(args.stop_loss) :
undefined`, likewise `take_profit`), validates them, and only then calls
`mt5ModifyPosition`. -/

/-- The raw tool arguments of an `mt5_modify_position` call (every field
may be absent). -/
structure ModifyArgs where
  login : Option String
  ticket : Option Rat
  stop_loss : Option Rat
  take_profit : Option Rat
  deriving DecidableEq

/-- The value the dispatcher stores in `result` for this tool call. -/
inductive DispatchResult where
  | errorResult (msg : String)
  | modifyResult (r : MT5TradeResponse)
  deriving DecidableEq

/-- The `case 'mt5_modify_position'` handler: if no service instance
exists, or the coerced login is empty, or the coerced ticket is `0`
(falsy), it returns an error result and sends nothing; otherwise it
calls `mt5ModifyPosition`, whose single outbound frame is returned. -/
def mt5ModifyDispatch (serviceAvailable : Bool) (args : ModifyArgs)
    (outcome : Except String MT5ModifyReply) :
    DispatchResult × List MT5ModifyFrame :=
  if serviceAvailable then
    let modLogin := jsOrStr args.login ""
    let modTicket := jsOrNum args.ticket 0
    let modSL := if jsTruthyNum args.stop_loss then args.stop_loss else none
    let modTP := if jsTruthyNum args.take_profit then args.take_profit else none
    if modLogin = "" ∨ modTicket = 0 then
      (.errorResult "Both login and ticket are required to modify a position.", [])
    else
      let params : MT5ModifyParams :=
        { login := modLogin, ticket := modTicket,
          stop_loss := modSL, take_profit := modTP }
      (.modifyResult (mt5ModifyPosition params outcome), [mt5ModifyRequest params])
  else
    (.errorResult "Deriv trading service not connected", [])

/-! ## Shared lemmas about the correlation state machine -/

theorem settlesCount_nil (i : Nat) : settlesCount i [] = 0 := rfl

theorem settlesCount_append (i : Nat) (a b : List SettleEvent) :
    settlesCount i (a ++ b) = settlesCount i a + settlesCount i b := by
  simp [settlesCount, List.filter_append]

theorem settlesCount_le_length (i : Nat) (evs : List SettleEvent) :
    settlesCount i evs ≤ evs.length :=
  List.length_filter_le _ _

theorem settlesCount_singleton (i : Nat) (e : SettleEvent) :
    settlesCount i [e] = if e.reqId = i then 1 else 0 := by
  by_cases h : e.reqId = i <;> simp [settlesCount, h]

/-- The settlement the `onmessage` handler emits is for the frame's `req_id`. -/
theorem settleOf_reqId (m : InMessage) :
    (match m.errorMsg with
     | some e => SettleEvent.rejected m.req_id e
     | none => SettleEvent.resolved m.req_id).reqId = m.req_id := by
  cases m.errorMsg <;> rfl

theorem messageStep_pos (s : ServiceState) (m : InMessage)
    (hc : m.req_id ≠ 0 ∧ m.req_id ∈ s.pending) :
    messageStep s m =
      ({ s with pending := s.pending.erase m.req_id,
                delivered := s.delivered ++ [m] },
       [match m.errorMsg with
        | some e => SettleEvent.rejected m.req_id e
        | none => SettleEvent.resolved m.req_id]) := by
  rw [messageStep, if_pos hc]

theorem messageStep_neg (s : ServiceState) (m : InMessage)
    (hc : ¬(m.req_id ≠ 0 ∧ m.req_id ∈ s.pending)) :
    messageStep s m = ({ s with delivered := s.delivered ++ [m] }, []) := by
  rw [messageStep, if_neg hc]

theorem timeoutStep_pos (s : ServiceState) (j : Nat) (hc : j ∈ s.pending) :
    timeoutStep s j =
      ({ s with pending := s.pending.erase j },
       [SettleEvent.rejected j "Request timeout"]) := by
  rw [timeoutStep, if_pos hc]

theorem timeoutStep_neg (s : ServiceState) (j : Nat) (hc : j ∉ s.pending) :
    timeoutStep s j = (s, []) := by
  rw [timeoutStep, if_neg hc]

theorem step_events_length (s : ServiceState) (st : Step) :
    (step s st).2.length ≤ 1 := by
  cases st with
  | recv m =>
    by_cases hc : m.req_id ≠ 0 ∧ m.req_id ∈ s.pending
    · rw [step, messageStep_pos s m hc]; exact Nat.le_refl 1
    · rw [step, messageStep_neg s m hc]; exact Nat.zero_le 1
  | timeout j =>
    by_cases hc : j ∈ s.pending
    · rw [step, timeoutStep_pos s j hc]; exact Nat.le_refl 1
    · rw [step, timeoutStep_neg s j hc]; exact Nat.zero_le 1
  | send => exact Nat.zero_le 1
  | wsOpen => exact Nat.zero_le 1
  | wsClose => exact Nat.zero_le 1
  | wsError => exact Nat.zero_le 1
  | close => exact Nat.zero_le 1

theorem dead_step (i : Nat) (s : ServiceState) (st : Step) (h : Dead i s) :
    Dead i (step s st).1 ∧ settlesCount i (step s st).2 = 0 := by
  obtain ⟨hnp, hle⟩ := h
  cases st with
  | send =>
    refine ⟨⟨?_, ?_⟩, rfl⟩
    · show i ∉ s.pending ++ [s.requestId + 1]
      rw [List.mem_append, List.mem_singleton]
      rintro (hmem | hEq)
      · exact hnp hmem
      · omega
    · show i ≤ s.requestId + 1
      omega
  | recv m =>
    by_cases hc : m.req_id ≠ 0 ∧ m.req_id ∈ s.pending
    · rw [step, messageStep_pos s m hc]
      have hne : m.req_id ≠ i := fun hEq => hnp (hEq ▸ hc.2)
      refine ⟨⟨fun hmem => hnp (List.erase_subset _ _ hmem), hle⟩, ?_⟩
      rw [settlesCount_singleton, settleOf_reqId, if_neg hne]
    · rw [step, messageStep_neg s m hc]
      exact ⟨⟨hnp, hle⟩, rfl⟩
  | timeout j =>
    by_cases hc : j ∈ s.pending
    · rw [step, timeoutStep_pos s j hc]
      have hne : j ≠ i := fun hEq => hnp (hEq ▸ hc)
      refine ⟨⟨fun hmem => hnp (List.erase_subset _ _ hmem), hle⟩, ?_⟩
      rw [settlesCount_singleton]
      exact if_neg hne
    · rw [step, timeoutStep_neg s j hc]
      exact ⟨⟨hnp, hle⟩, rfl⟩
  | wsOpen => exact ⟨⟨hnp, hle⟩, rfl⟩
  | wsClose =>
    refine ⟨⟨?_, ?_⟩, rfl⟩
    · show i ∉ (attemptReconnect { s with isConnected := false }).pending
      rw [attemptReconnect]
      split <;> exact hnp
    · show i ≤ (attemptReconnect { s with isConnected := false }).requestId
      rw [attemptReconnect]
      split <;> exact hle
  | wsError => exact ⟨⟨hnp, hle⟩, rfl⟩
  | close => exact ⟨⟨List.not_mem_nil i, hle⟩, rfl⟩

theorem dead_runEvents (i : Nat) (s : ServiceState) (tr : List Step)
    (h : Dead i s) :
    settlesCount i (runEvents s tr) = 0 ∧ Dead i (runState s tr) := by
  induction tr generalizing s with
  | nil => exact ⟨rfl, h⟩
  | cons st rest ih =>
    obtain ⟨h1, h2⟩ := dead_step i s st h
    obtain ⟨ih1, ih2⟩ := ih (step s st).1 h1
    refine ⟨?_, ih2⟩
    rw [runEvents, settlesCount_append, h2, ih1]

theorem inv_step (s : ServiceState) (st : Step) (h : Inv s) :
    Inv (step s st).1 := by
  obtain ⟨hnd, hbd⟩ := h
  cases st with
  | send =>
    constructor
    · show (s.pending ++ [s.requestId + 1]).Nodup
      rw [List.nodup_append]
      refine ⟨hnd, List.nodup_singleton _, ?_⟩
      intro a ha hb
      rw [List.mem_singleton] at hb
      have := hbd a ha
      omega
    · show ∀ i ∈ s.pending ++ [s.requestId + 1], 1 ≤ i ∧ i ≤ s.requestId + 1
      intro i hi
      rw [List.mem_append, List.mem_singleton] at hi
      rcases hi with hi | hi
      · have := hbd i hi; omega
      · omega
  | recv m =>
    by_cases hc : m.req_id ≠ 0 ∧ m.req_id ∈ s.pending
    · rw [step, messageStep_pos s m hc]
      exact ⟨hnd.erase _, fun i hi => hbd i (List.erase_subset _ _ hi)⟩
    · rw [step, messageStep_neg s m hc]
      exact ⟨hnd, hbd⟩
  | timeout j =>
    by_cases hc : j ∈ s.pending
    · rw [step, timeoutStep_pos s j hc]
      exact ⟨hnd.erase _, fun i hi => hbd i (List.erase_subset _ _ hi)⟩
    · rw [step, timeoutStep_neg s j hc]
      exact ⟨hnd, hbd⟩
  | wsOpen => exact ⟨hnd, hbd⟩
  | wsClose =>
    constructor
    · show (attemptReconnect { s with isConnected := false }).pending.Nodup
      rw [attemptReconnect]; split <;> exact hnd
    · show ∀ i ∈ (attemptReconnect { s with isConnected := false }).pending,
        1 ≤ i ∧ i ≤ (attemptReconnect { s with isConnected := false }).requestId
      rw [attemptReconnect]; split <;> exact hbd
  | wsError => exact ⟨hnd, hbd⟩
  | close => exact ⟨List.nodup_nil, by intro i hi; exact absurd hi (List.not_mem_nil i)⟩

theorem settle_makes_dead (i : Nat) (s : ServiceState) (st : Step)
    (h : Inv s) (hne : settlesCount i (step s st).2 ≠ 0) :
    Dead i (step s st).1 := by
  obtain ⟨hnd, hbd⟩ := h
  cases st with
  | send => exact absurd rfl hne
  | recv m =>
    by_cases hc : m.req_id ≠ 0 ∧ m.req_id ∈ s.pending
    · rw [step, messageStep_pos s m hc] at hne ⊢
      rw [settlesCount_singleton, settleOf_reqId] at hne
      have hid : m.req_id = i := by
        by_contra hEq
        rw [if_neg hEq] at hne
        exact hne rfl
      constructor
      · show i ∉ s.pending.erase m.req_id
        rw [hid]
        intro hmem
        exact ((hnd.mem_erase_iff).1 hmem).1 rfl
      · exact (hbd i (hid ▸ hc.2)).2
    · rw [step, messageStep_neg s m hc] at hne
      exact absurd rfl hne
  | timeout j =>
    by_cases hc : j ∈ s.pending
    · rw [step, timeoutStep_pos s j hc] at hne ⊢
      rw [settlesCount_singleton] at hne
      simp only [SettleEvent.reqId] at hne
      have hid : j = i := by
        by_contra hEq
        rw [if_neg hEq] at hne
        exact hne rfl
      constructor
      · show i ∉ s.pending.erase j
        rw [hid]
        intro hmem
        exact ((hnd.mem_erase_iff).1 hmem).1 rfl
      · exact (hbd i (hid ▸ hc)).2
    · rw [step, timeoutStep_neg s j hc] at hne
      exact absurd rfl hne
  | wsOpen => exact absurd rfl hne
  | wsClose => exact absurd rfl hne
  | wsError => exact absurd rfl hne
  | close => exact absurd rfl hne

theorem runEvents_settles_le_one (i : Nat) (s : ServiceState) (tr : List Step)
    (h : Inv s) :
    settlesCount i (runEvents s tr) ≤ 1 := by
  induction tr generalizing s with
  | nil => exact Nat.le_of_eq rfl |>.trans (Nat.zero_le 1)
  | cons st rest ih =>
    rw [runEvents, settlesCount_append]
    by_cases hc : settlesCount i (step s st).2 = 0
    · rw [hc]
      simpa using ih (step s st).1 (inv_step s st h)
    · have h1 : settlesCount i (step s st).2 = 1 := by
        have ha := settlesCount_le_length i (step s st).2
        have hb := step_events_length s st
        omega
      have hd := settle_makes_dead i s st h hc
      have h0 := (dead_runEvents i (step s st).1 rest hd).1
      omega

/-- No handler ever resets or rewinds the id counter, and `sendStep` logs
exactly the ids it assigns: from any state whose log is the initial
segment `[1, …, requestId]`, any trace keeps the log in that form and
grows the counter by exactly the number of sends. -/
theorem assigned_run (s : ServiceState) (tr : List Step)
    (h : s.assigned = List.range' 1 s.requestId) :
    (runState s tr).assigned = List.range' 1 (runState s tr).requestId
    ∧ (runState s tr).requestId = s.requestId + tr.countP Step.isSend := by
  induction tr generalizing s with
  | nil => exact ⟨h, by rw [runState]; simp⟩
  | cons st rest ih =>
    have hstep : (step s st).1.assigned = List.range' 1 (step s st).1.requestId
        ∧ (step s st).1.requestId = s.requestId + (if Step.isSend st then 1 else 0) := by
      cases st with
      | send =>
        constructor
        · show s.assigned ++ [s.requestId + 1] = List.range' 1 (s.requestId + 1)
          rw [h, List.range'_concat]
          congr 1
          rw [List.singleton_inj]
          omega
        · simp [step, sendStep, Step.isSend]
      | recv m =>
        by_cases hc : m.req_id ≠ 0 ∧ m.req_id ∈ s.pending
        · rw [step, messageStep_pos s m hc]; exact ⟨h, by simp [Step.isSend]⟩
        · rw [step, messageStep_neg s m hc]; exact ⟨h, by simp [Step.isSend]⟩
      | timeout j =>
        by_cases hc : j ∈ s.pending
        · rw [step, timeoutStep_pos s j hc]; exact ⟨h, by simp [Step.isSend]⟩
        · rw [step, timeoutStep_neg s j hc]; exact ⟨h, by simp [Step.isSend]⟩
      | wsOpen => exact ⟨h, by simp [step, openStep, Step.isSend]⟩
      | wsClose =>
        constructor
        · show (attemptReconnect { s with isConnected := false }).assigned
            = List.range' 1 (attemptReconnect { s with isConnected := false }).requestId
          rw [attemptReconnect]
          split <;> exact h
        · show (attemptReconnect { s with isConnected := false }).requestId
            = s.requestId + (if Step.isSend .wsClose then 1 else 0)
          rw [attemptReconnect]
          split <;> simp [Step.isSend]
      | wsError => exact ⟨h, by simp [step, errorStep, Step.isSend]⟩
      | close => exact ⟨h, by simp [step, disconnectStep, Step.isSend]⟩
    obtain ⟨ih1, ih2⟩ := ih (step s st).1 hstep.1
    refine ⟨ih1, ?_⟩
    show (runState (step s st).1 rest).requestId = s.requestId + (st :: rest).countP Step.isSend
    rw [ih2, hstep.2, List.countP_cons]
    by_cases hs : Step.isSend st = true
    · simp [hs]
      omega
    · simp [hs]

/-- Iterating the close handler from the initial state: the attempt
counter saturates at `maxReconnectAttempts` and the scheduled delays are
exactly `baseDelay·1, …, baseDelay·min k max`. -/
theorem closeStep_iterate (k : Nat) :
    ((closeStep^[k]) initialState).reconnectAttempts = min k maxReconnectAttempts
    ∧ ((closeStep^[k]) initialState).scheduledDelays
      = (List.range (min k maxReconnectAttempts)).map (fun n => baseDelay * (n + 1)) := by
  induction k with
  | zero => exact ⟨rfl, rfl⟩
  | succ k ih =>
    obtain ⟨h1, h2⟩ := ih
    rw [Function.iterate_succ_apply']
    by_cases hk : k < maxReconnectAttempts
    · have hmin : min k maxReconnectAttempts = k := by omega
      have hmin' : min (k + 1) maxReconnectAttempts = k + 1 := by omega
      rw [hmin] at h1 h2
      rw [hmin']
      have hcond : ((closeStep^[k]) initialState).reconnectAttempts < maxReconnectAttempts := by
        rw [h1]; exact hk
      constructor
      · show (attemptReconnect { (closeStep^[k]) initialState with isConnected := false }).reconnectAttempts = k + 1
        rw [attemptReconnect, if_pos hcond, h1]
      · show (attemptReconnect { (closeStep^[k]) initialState with isConnected := false }).scheduledDelays
          = (List.range (k + 1)).map (fun n => baseDelay * (n + 1))
        rw [attemptReconnect, if_pos hcond]
        show ((closeStep^[k]) initialState).scheduledDelays
            ++ [baseDelay * (((closeStep^[k]) initialState).reconnectAttempts + 1)]
          = (List.range (k + 1)).map (fun n => baseDelay * (n + 1))
        rw [h1, h2, List.range_succ, List.map_append]
        simp
    · have hmin : min k maxReconnectAttempts = maxReconnectAttempts := by omega
      have hmin' : min (k + 1) maxReconnectAttempts = maxReconnectAttempts := by omega
      rw [hmin] at h1 h2
      rw [hmin']
      have hcond : ¬ ((closeStep^[k]) initialState).reconnectAttempts < maxReconnectAttempts := by
        rw [h1]; omega
      constructor
      · show (attemptReconnect { (closeStep^[k]) initialState with isConnected := false }).reconnectAttempts = maxReconnectAttempts
        rw [attemptReconnect, if_neg hcond, h1]
      · show (attemptReconnect { (closeStep^[k]) initialState with isConnected := false }).scheduledDelays
          = (List.range maxReconnectAttempts).map (fun n => baseDelay * (n + 1))
        rw [attemptReconnect, if_neg hcond]
        exact h2

/-! ## Claims -/

/-- C1: every pending request is settled at most once.  Over any trace of
event-loop turns from a state satisfying the pending-map invariant, the
deferred result of request id `i` is resolved or rejected at most once
(`settlesCount i … ≤ 1`): the `onmessage` handler deletes the record in
the same turn in which it settles it (third conjunct: whenever a
settlement is emitted, the record is gone from the resulting pending
map), so a duplicate reply or a reply arriving after the request's
timeout already fired finds no record and settles nothing, while still
being delivered to the subscriber fan-out (second conjunct); and the
timeout callback is a no-op — no rejection emitted — when the record is
no longer present (fourth conjunct). -/
theorem pending_settled_at_most_once (s : ServiceState) (tr : List Step)
    (i : Nat) (m : InMessage) (j : Nat) (hinv : Inv s) :
    settlesCount i (runEvents s tr) ≤ 1
    ∧ (m.req_id ∉ s.pending →
        (messageStep s m).2 = []
        ∧ (messageStep s m).1.delivered = s.delivered ++ [m])
    ∧ ((messageStep s m).2 ≠ [] → m.req_id ∉ (messageStep s m).1.pending)
    ∧ (j ∉ s.pending → timeoutStep s j = (s, [])) := by
  refine ⟨runEvents_settles_le_one i s tr hinv, ?_, ?_, fun hj => timeoutStep_neg s j hj⟩
  · intro hm
    have hc : ¬(m.req_id ≠ 0 ∧ m.req_id ∈ s.pending) := fun h => hm h.2
    rw [messageStep_neg s m hc]
    exact ⟨rfl, rfl⟩
  · intro hne
    by_cases hc : m.req_id ≠ 0 ∧ m.req_id ∈ s.pending
    · rw [messageStep_pos s m hc]
      intro hmem
      exact ((hinv.1.mem_erase_iff).1 hmem).1 rfl
    · rw [messageStep_neg s m hc] at hne
      exact absurd rfl hne

/-- Witness for C1 at a concrete state: one request (id 1) pending, a
reply for it processed twice. -/
theorem pending_settled_at_most_once_witness :
    Inv { requestId := 1, pending := [1], assigned := [1], isConnected := true,
          reconnectAttempts := 0, scheduledDelays := [], delivered := [] }
    ∧ (settlesCount 1
        (runEvents
          { requestId := 1, pending := [1], assigned := [1], isConnected := true,
            reconnectAttempts := 0, scheduledDelays := [], delivered := [] }
          [Step.recv ⟨1, none⟩, Step.recv ⟨1, none⟩]) ≤ 1
      ∧ ((⟨2, none⟩ : InMessage).req_id ∉
            ({ requestId := 1, pending := [1], assigned := [1], isConnected := true,
               reconnectAttempts := 0, scheduledDelays := [], delivered := [] } : ServiceState).pending →
          (messageStep
            { requestId := 1, pending := [1], assigned := [1], isConnected := true,
              reconnectAttempts := 0, scheduledDelays := [], delivered := [] }
            ⟨2, none⟩).2 = []
          ∧ (messageStep
              { requestId := 1, pending := [1], assigned := [1], isConnected := true,
                reconnectAttempts := 0, scheduledDelays := [], delivered := [] }
              ⟨2, none⟩).1.delivered
            = ({ requestId := 1, pending := [1], assigned := [1], isConnected := true,
                 reconnectAttempts := 0, scheduledDelays := [], delivered := [] } : ServiceState).delivered
              ++ [⟨2, none⟩])
      ∧ ((messageStep
            { requestId := 1, pending := [1], assigned := [1], isConnected := true,
              reconnectAttempts := 0, scheduledDelays := [], delivered := [] }
            ⟨2, none⟩).2 ≠ [] →
          (⟨2, none⟩ : InMessage).req_id ∉
            (messageStep
              { requestId := 1, pending := [1], assigned := [1], isConnected := true,
                reconnectAttempts := 0, scheduledDelays := [], delivered := [] }
              ⟨2, none⟩).1.pending)
      ∧ (2 ∉ ({ requestId := 1, pending := [1], assigned := [1], isConnected := true,
                reconnectAttempts := 0, scheduledDelays := [], delivered := [] } : ServiceState).pending →
          timeoutStep
            { requestId := 1, pending := [1], assigned := [1], isConnected := true,
              reconnectAttempts := 0, scheduledDelays := [], delivered := [] }
            2
          = ({ requestId := 1, pending := [1], assigned := [1], isConnected := true,
               reconnectAttempts := 0, scheduledDelays := [], delivered := [] }, []))) :=
  ⟨by decide,
   pending_settled_at_most_once
     { requestId := 1, pending := [1], assigned := [1], isConnected := true,
       reconnectAttempts := 0, scheduledDelays := [], delivered := [] }
     [Step.recv ⟨1, none⟩, Step.recv ⟨1, none⟩] 1 ⟨2, none⟩ 2 (by decide)⟩

/-- C10: over any trace of event-loop turns from a fresh service
instance — sends interleaved arbitrarily with replies, timeouts,
open/close/error transport events, and explicit `disconnect()` calls —
the ids handed out by `getNextRequestId` are exactly `1, 2, …, n` in
order (`n` = number of sends), the counter equals `n` (never reset by
`disconnect()` or by any reconnection), and hence every correlation id
is assigned to at most one request in the instance's lifetime. -/
theorem request_ids_consecutive (tr : List Step) :
    (runState initialState tr).assigned = List.range' 1 (tr.countP Step.isSend)
    ∧ (runState initialState tr).requestId = tr.countP Step.isSend
    ∧ (runState initialState tr).assigned.Nodup := by
  obtain ⟨h1, h2⟩ := assigned_run initialState tr rfl
  rw [show initialState.requestId = 0 from rfl, Nat.zero_add] at h2
  refine ⟨?_, h2, ?_⟩
  · rw [h1, h2]
  · rw [h1, h2]
    exact List.nodup_range' ..

/-- C4: after `k` consecutive unexpected closes with no intervening
successful open, the scheduled reconnect delays are exactly
`baseDelay·1, baseDelay·2, …, baseDelay·min k 5` — the delay before
attempt `k` is `3000·k` for `k = 1..5` — and once the 5-attempt budget
is exhausted, further closes leave the schedule (indeed the whole state)
unchanged: no further automatic reconnection is scheduled. -/
theorem reconnect_backoff_linear (k : Nat) :
    ((closeStep^[k]) initialState).scheduledDelays
      = (List.range (min k maxReconnectAttempts)).map (fun n => baseDelay * (n + 1))
    ∧ ((closeStep^[k + maxReconnectAttempts]) initialState)
      = ((closeStep^[maxReconnectAttempts]) initialState) := by
  refine ⟨(closeStep_iterate k).2, ?_⟩
  induction k with
  | zero => rfl
  | succ k ih =>
    have hsat : ((closeStep^[k + maxReconnectAttempts]) initialState).reconnectAttempts
        = maxReconnectAttempts := by
      rw [(closeStep_iterate (k + maxReconnectAttempts)).1]
      omega
    have hconn : ((closeStep^[k + maxReconnectAttempts]) initialState).isConnected = false := by
      rw [ih]
      show ((closeStep^[4 + 1]) initialState).isConnected = false
      rw [Function.iterate_succ_apply']
      show (attemptReconnect _).isConnected = false
      rw [attemptReconnect]
      split <;> rfl
    have : (k + 1) + maxReconnectAttempts = (k + maxReconnectAttempts) + 1 := by omega
    rw [this, Function.iterate_succ_apply']
    rw [show closeStep ((closeStep^[k + maxReconnectAttempts]) initialState)
        = attemptReconnect { (closeStep^[k + maxReconnectAttempts]) initialState
            with isConnected := false } from rfl]
    rw [attemptReconnect]
    rw [if_neg (by rw [hsat]; omega)]
    have hstate : ({ (closeStep^[k + maxReconnectAttempts]) initialState
        with isConnected := false } : ServiceState)
        = (closeStep^[k + maxReconnectAttempts]) initialState := by
      cases hsk : (closeStep^[k + maxReconnectAttempts]) initialState
      rw [hsk] at hconn
      simp at hconn
      rw [hconn]
    rw [hstate, ih]

/-- C5 counterexample: start from a freshly opened connection
(`reconnectAttempts = 0`), call `disconnect()`, then let the transport
close event it causes fire.  The close handler unconditionally calls
`attemptReconnect`, which schedules a reconnect with delay `baseDelay`
— contradicting the claim that the closure caused by `disconnect()`
never leads to a scheduled reconnection. -/
theorem disconnect_close_schedules_reconnect :
    (closeStep (disconnectStep (openStep initialState))).scheduledDelays = [baseDelay]
    ∧ (closeStep (disconnectStep (openStep initialState))).reconnectAttempts = 1 := by
  decide

/-- C5 amended: after an explicit `disconnect()`, the transport close
event still invokes `attemptReconnect`; whenever fewer than
`maxReconnectAttempts` (5) attempts have accumulated, a new connect is
scheduled with delay `baseDelay · (attempts + 1)` — `disconnect()` does
not suppress automatic reconnection (only exhaustion of the 5-attempt
budget stops it). -/
theorem disconnect_close_still_reconnects (s : ServiceState)
    (h : s.reconnectAttempts < maxReconnectAttempts) :
    (closeStep (disconnectStep s)).scheduledDelays
      = s.scheduledDelays ++ [baseDelay * (s.reconnectAttempts + 1)]
    ∧ (closeStep (disconnectStep s)).reconnectAttempts = s.reconnectAttempts + 1 := by
  rw [show closeStep (disconnectStep s)
      = attemptReconnect { disconnectStep s with isConnected := false } from rfl]
  rw [attemptReconnect]
  rw [if_pos (show ({ disconnectStep s with isConnected := false } : ServiceState).reconnectAttempts
      < maxReconnectAttempts from h)]
  exact ⟨rfl, rfl⟩

/-- Witness for the amended C5 at a freshly opened connection. -/
theorem disconnect_close_still_reconnects_witness :
    (openStep initialState).reconnectAttempts < maxReconnectAttempts
    ∧ ((closeStep (disconnectStep (openStep initialState))).scheduledDelays
        = (openStep initialState).scheduledDelays
          ++ [baseDelay * ((openStep initialState).reconnectAttempts + 1)]
      ∧ (closeStep (disconnectStep (openStep initialState))).reconnectAttempts
        = (openStep initialState).reconnectAttempts + 1) :=
  ⟨by decide, disconnect_close_still_reconnects (openStep initialState) (by decide)⟩

/-- C6: `disconnect()` empties the whole pending map while emitting no
resolution or rejection (second conjunct: the step produces no settle
event), and any request in flight at that moment — any id the counter
has already covered — is never settled afterwards by any trace of later
events; in particular its still-armed 30-second timeout callback finds
no record and rejects nothing. -/
theorem disconnect_discards_pending (s : ServiceState) (i : Nat)
    (tr : List Step) (h : i ≤ s.requestId) :
    (disconnectStep s).pending = []
    ∧ step s .close = (disconnectStep s, [])
    ∧ settlesCount i (runEvents (disconnectStep s) tr) = 0 := by
  refine ⟨rfl, rfl, ?_⟩
  exact (dead_runEvents i (disconnectStep s) tr ⟨List.not_mem_nil i, h⟩).1

/-- Witness for C6: requests 2 and 3 in flight, `disconnect()`, then
request 2's timeout fires and a late reply for it arrives. -/
theorem disconnect_discards_pending_witness :
    2 ≤ ({ requestId := 3, pending := [2, 3], assigned := [1, 2, 3], isConnected := true,
           reconnectAttempts := 0, scheduledDelays := [], delivered := [] } : ServiceState).requestId
    ∧ ((disconnectStep
          { requestId := 3, pending := [2, 3], assigned := [1, 2, 3], isConnected := true,
            reconnectAttempts := 0, scheduledDelays := [], delivered := [] }).pending = []
      ∧ step
          { requestId := 3, pending := [2, 3], assigned := [1, 2, 3], isConnected := true,
            reconnectAttempts := 0, scheduledDelays := [], delivered := [] }
          .close
        = (disconnectStep
            { requestId := 3, pending := [2, 3], assigned := [1, 2, 3], isConnected := true,
              reconnectAttempts := 0, scheduledDelays := [], delivered := [] }, [])
      ∧ settlesCount 2
          (runEvents
            (disconnectStep
              { requestId := 3, pending := [2, 3], assigned := [1, 2, 3], isConnected := true,
                reconnectAttempts := 0, scheduledDelays := [], delivered := [] })
            [Step.timeout 2, Step.recv ⟨2, none⟩]) = 0) :=
  ⟨by decide,
   disconnect_discards_pending
     { requestId := 3, pending := [2, 3], assigned := [1, 2, 3], isConnected := true,
       reconnectAttempts := 0, scheduledDelays := [], delivered := [] }
     2 [Step.timeout 2, Step.recv ⟨2, none⟩] (by decide)⟩

/-- C2: every public trading operation is fail-closed.  Each operation
is a total function (no exception can propagate), and on any rejection
of an awaited request — network/connect failure, timeout, or a reply
frame carrying an error payload, all surfacing as the same rejection —
it returns its documented default: `none` (null) for object-returning
operations, `[]` for list-returning operations, and
`{ success := false }` with an error string for trade operations.  The
conjuncts also cover the second request of two-request operations
(`getAccountInfo`, `getMT5Symbols`, `buyContract`) and the explicit
`response.error` checks of `mt5NewOrder`, `mt5ModifyPosition` and
`getMT5OpenPositions`. -/
theorem operations_fail_closed (e : String)
    (rb : Except String BalanceReply) (ra : Except String AuthorizeReply)
    (rs : Except String ActiveSymbolsReply)
    (p : BuyContractParams) (bo : SendOutcome BuyReply) (pd : ProposalData)
    (ts : TradingServersReply)
    (np : MT5NewOrderParams) (err : ErrorPayload)
    (nd : Option MT5NewOrderData) (t : Rat)
    (mp : MT5ModifyParams) (ps : Option (List MT5PositionRaw))
    (α : Type) :
    getAccountInfo (.error e) ra = none
    ∧ getAccountInfo rb (.error e) = none
    ∧ getOpenPositions (.error e) = []
    ∧ getAvailableSymbols (.error e) = []
    ∧ getSymbolPrice (.error e) = none
    ∧ (buyContract p (.sent (.error e)) bo).1 = { success := false, error := some e }
    ∧ (buyContract p (.notSent e) bo).1 = { success := false, error := some e }
    ∧ (buyContract p (.sent (.ok ⟨none, some pd⟩)) (.sent (.error e))).1
      = { success := false, error := some e }
    ∧ sellContract (.error e) = { success := false, error := some e }
    ∧ getMT5Accounts (.error e) = []
    ∧ getMT5AccountInfo (.error e) = none
    ∧ getMT5Symbols (.error e) rs = []
    ∧ getMT5Symbols (.ok ts) (.error e) = []
    ∧ mt5NewOrder np (.error e) = { success := false, error := some e }
    ∧ ((mt5NewOrder np (.ok ⟨some err, nd⟩)).success = false
        ∧ (mt5NewOrder np (.ok ⟨some err, nd⟩)).error.isSome = true)
    ∧ mt5ClosePosition t (.error e) = { success := false, error := some e }
    ∧ getMT5OpenPositions (.error e) = []
    ∧ getMT5OpenPositions (.ok ⟨some err, ps⟩) = []
    ∧ mt5ModifyPosition mp (.error e) = { success := false, error := some e }
    ∧ ((mt5ModifyPosition mp (.ok ⟨some err⟩)).success = false
        ∧ (mt5ModifyPosition mp (.ok ⟨some err⟩)).error.isSome = true)
    ∧ getMT5TradeHistory α (.error e) = []
    ∧ getTransactionHistory α (.error e) = []
    ∧ getProfitTable α (.error e) = [] :=
  ⟨rfl, by cases rb <;> rfl, rfl, rfl, rfl, rfl, rfl, rfl, rfl, rfl, rfl,
   rfl, rfl, rfl, ⟨rfl, by simp [mt5NewOrder, jsOrStr, jsTruthyStr]⟩, rfl, rfl,
   rfl, rfl, ⟨rfl, by simp [mt5ModifyPosition, jsOrStr, jsTruthyStr]⟩, rfl, rfl, rfl⟩

/-- C3: `buyContract` is two-phase.  If the proposal step reports an
error — either the awaited proposal promise rejects with the gateway's
message (the onmessage handler rejects on an `error` payload), or the
dead-code in-band `error` field is set — the operation returns
`{ success := false, error := <gateway message> }` and the outbound
frames are exactly the proposal frame: no buy frame is ever sent.  Only
when the proposal succeeds is a buy frame sent, and then it is exactly
one, carrying the proposal's `id` and `price := params.amount` (the
original stake).  In every case at most one buy frame goes out. -/
theorem buyContract_two_phase (p : BuyContractParams) (msg : String)
    (pr : ProposalReply) (prop : ProposalData)
    (po : SendOutcome ProposalReply) (bo : SendOutcome BuyReply)
    (res : Except String BuyReply) :
    buyContract p (.sent (.error msg)) bo
      = ({ success := false, error := some msg }, [.proposalReq (proposalFrame p)])
    ∧ (pr.error = some ⟨msg⟩ →
        buyContract p (.sent (.ok pr)) bo
          = ({ success := false, error := some msg }, [.proposalReq (proposalFrame p)]))
    ∧ (pr.error = none → pr.proposal = some prop →
        (buyContract p (.sent (.ok pr)) (.sent res)).2.filter OutboundFrame.isBuy
          = [.buyReq prop.id p.amount])
    ∧ ((buyContract p po bo).2.filter OutboundFrame.isBuy).length ≤ 1 := by
  refine ⟨rfl, ?_, ?_, ?_⟩
  · intro h
    rcases pr with ⟨pe, pp⟩
    cases h
    rfl
  · intro h1 h2
    rcases pr with ⟨pe, pp⟩
    cases h1
    cases h2
    cases res <;> simp [buyContract, OutboundFrame.isBuy]
  · rcases po with m | r
    · simp [buyContract]
    · rcases r with m | pr'
      · simp [buyContract, OutboundFrame.isBuy]
      · rcases pr' with ⟨pe, pp⟩
        rcases pe with _ | pe'
        · rcases pp with _ | prop'
          · simp [buyContract, OutboundFrame.isBuy]
          · rcases bo with m | r'
            · simp [buyContract, OutboundFrame.isBuy]
            · rcases r' with m | br <;> simp [buyContract, OutboundFrame.isBuy]
        · simp [buyContract, OutboundFrame.isBuy]

/-- Witness for C3: the error path at the gateway message
`Invalid symbol` (no buy frame) and the success path for proposal id
`p1` (exactly one buy frame with `p1` and the stake as price). -/
theorem buyContract_two_phase_witness :
    buyContract
      { symbol := "R_100", contract_type := .CALL, amount := 5, duration := 5,
        duration_unit := .t, basis := none, barrier := none }
      (.sent (.error "Invalid symbol")) (.sent (.ok ⟨some ⟨some "c1", some 5⟩⟩))
    = ({ success := false, error := some "Invalid symbol" },
       [.proposalReq (proposalFrame
          { symbol := "R_100", contract_type := .CALL, amount := 5, duration := 5,
            duration_unit := .t, basis := none, barrier := none })])
    ∧ (buyContract
        { symbol := "R_100", contract_type := .CALL, amount := 5, duration := 5,
          duration_unit := .t, basis := none, barrier := none }
        (.sent (.ok ⟨none, some ⟨"p1"⟩⟩))
        (.sent (.ok ⟨some ⟨some "c1", some 5⟩⟩))).2.filter OutboundFrame.isBuy
      = [.buyReq "p1" 5] :=
  ⟨(buyContract_two_phase
      { symbol := "R_100", contract_type := .CALL, amount := 5, duration := 5,
        duration_unit := .t, basis := none, barrier := none }
      "Invalid symbol" ⟨none, some ⟨"p1"⟩⟩ ⟨"p1"⟩
      (.sent (.ok ⟨none, some ⟨"p1"⟩⟩))
      (.sent (.ok ⟨some ⟨some "c1", some 5⟩⟩))
      (.ok ⟨some ⟨some "c1", some 5⟩⟩)).1,
   (buyContract_two_phase
      { symbol := "R_100", contract_type := .CALL, amount := 5, duration := 5,
        duration_unit := .t, basis := none, barrier := none }
      "Invalid symbol" ⟨none, some ⟨"p1"⟩⟩ ⟨"p1"⟩
      (.sent (.ok ⟨none, some ⟨"p1"⟩⟩))
      (.sent (.ok ⟨some ⟨some "c1", some 5⟩⟩))
      (.ok ⟨some ⟨some "c1", some 5⟩⟩)).2.2.1 rfl rfl⟩

/-- C7: the `mt5_modify_position` tool-call handler, given a non-empty
login and no ticket, returns the immediate failure result
`Both login and ticket are required to modify a position.` and sends
zero outbound frames — the missing required parameter is detected
before `mt5ModifyPosition` (and hence any wire round-trip) is invoked. -/
theorem mt5_modify_missing_ticket (l : String) (sl tp : Option Rat)
    (outcome : Except String MT5ModifyReply) (hl : l ≠ "") :
    mt5ModifyDispatch true
      { login := some l, ticket := none, stop_loss := sl, take_profit := tp }
      outcome
    = (.errorResult "Both login and ticket are required to modify a position.", []) := by
  rw [mt5ModifyDispatch]
  rw [if_pos rfl]
  have hlogin : jsOrStr (some l) "" = l := by
    simp [jsOrStr, jsTruthyStr, hl]
  rw [if_pos (by rw [hlogin]; right; rfl)]

/-- Witness for C7 at login `MT12345`, `take_profit = 1.95`. -/
theorem mt5_modify_missing_ticket_witness :
    "MT12345" ≠ ""
    ∧ mt5ModifyDispatch true
        { login := some "MT12345", ticket := none, stop_loss := none,
          take_profit := some (195 / 100) }
        (.ok ⟨none⟩)
      = (.errorResult "Both login and ticket are required to modify a position.", []) :=
  ⟨by decide,
   mt5_modify_missing_ticket "MT12345" none (some (195 / 100)) (.ok ⟨none⟩) (by decide)⟩

/-- C8: the `mt5_modify_position` frame contains `stop_loss` iff
`params.stop_loss` was explicitly provided, and `take_profit` iff
`params.take_profit` was, with the provided value passed through
unchanged — so a call with only `take_profit` omits `stop_loss`
entirely (no placeholder), and an explicit `0` is still sent. -/
theorem mt5_modify_partial_fields (p : MT5ModifyParams) (v : Rat) :
    ((mt5ModifyRequest p).stop_loss.isSome ↔ p.stop_loss.isSome)
    ∧ ((mt5ModifyRequest p).take_profit.isSome ↔ p.take_profit.isSome)
    ∧ (mt5ModifyRequest p).stop_loss = p.stop_loss
    ∧ (mt5ModifyRequest p).take_profit = p.take_profit
    ∧ (mt5ModifyRequest
        { login := p.login, ticket := p.ticket,
          stop_loss := none, take_profit := some v }).stop_loss = none
    ∧ (mt5ModifyRequest
        { login := p.login, ticket := p.ticket,
          stop_loss := none, take_profit := some v }).take_profit = some v
    ∧ (mt5ModifyRequest { p with stop_loss := some 0 }).stop_loss = some 0 := by
  have hmain : ∀ q : MT5ModifyParams,
      (mt5ModifyRequest q).stop_loss = q.stop_loss
      ∧ (mt5ModifyRequest q).take_profit = q.take_profit := by
    intro q
    rcases q with ⟨l, t, sl, tp⟩
    cases sl <;> cases tp <;> simp [mt5ModifyRequest]
  obtain ⟨h1, h2⟩ := hmain p
  refine ⟨by rw [h1], by rw [h2], h1, h2, ?_, ?_, ?_⟩
  · exact (hmain _).1
  · exact (hmain _).2
  · exact (hmain _).1

/-- C9: `mt5NewOrder` adds its optional fields by truthiness: `price`,
`stop_loss`, `take_profit` appear in the frame only when the parameter
is a truthy number (so an explicit `0` is omitted — unlike
`mt5ModifyPosition`, which sends an explicit `0`, final conjunct) and
`comment` only when a non-empty string; and `price` is omitted whenever
`order_type` is `market`, even if a price was provided. -/
theorem mt5_new_order_truthy_fields (p : MT5NewOrderParams) :
    ((mt5NewOrderRequest p).price.isSome → jsTruthyNum p.price = true)
    ∧ ((mt5NewOrderRequest p).stop_loss.isSome → jsTruthyNum p.stop_loss = true)
    ∧ ((mt5NewOrderRequest p).take_profit.isSome → jsTruthyNum p.take_profit = true)
    ∧ ((mt5NewOrderRequest p).comment.isSome → jsTruthyStr p.comment = true)
    ∧ (mt5NewOrderRequest { p with stop_loss := some 0 }).stop_loss = none
    ∧ (mt5NewOrderRequest { p with take_profit := some 0 }).take_profit = none
    ∧ (mt5NewOrderRequest { p with order_type := some .market }).price = none
    ∧ (mt5ModifyRequest
        { login := p.login, ticket := 1, stop_loss := some 0,
          take_profit := none }).stop_loss = some 0 := by
  have hframe : ∀ q : MT5NewOrderParams,
      (mt5NewOrderRequest q).price
        = (if jsTruthyNum q.price && !(q.order_type == some .market) then q.price else none)
      ∧ (mt5NewOrderRequest q).stop_loss
        = (if jsTruthyNum q.stop_loss then q.stop_loss else none)
      ∧ (mt5NewOrderRequest q).take_profit
        = (if jsTruthyNum q.take_profit then q.take_profit else none)
      ∧ (mt5NewOrderRequest q).comment
        = (if jsTruthyStr q.comment then q.comment else none) := by
    intro q
    rw [mt5NewOrderRequest]
    by_cases h1 : jsTruthyNum q.price && !(q.order_type == some .market)
    · rw [if_pos h1]
      by_cases h2 : jsTruthyNum q.stop_loss = true
      · rw [if_pos h2]
        by_cases h3 : jsTruthyNum q.take_profit = true
        · rw [if_pos h3]
          by_cases h4 : jsTruthyStr q.comment = true
          · rw [if_pos h4]; simp [h1, h2, h3, h4]
          · rw [if_neg h4]; simp [h1, h2, h3, h4]
        · rw [if_neg h3]
          by_cases h4 : jsTruthyStr q.comment = true
          · rw [if_pos h4]; simp [h1, h2, h3, h4]
          · rw [if_neg h4]; simp [h1, h2, h3, h4]
      · rw [if_neg h2]
        by_cases h3 : jsTruthyNum q.take_profit = true
        · rw [if_pos h3]
          by_cases h4 : jsTruthyStr q.comment = true
          · rw [if_pos h4]; simp [h1, h2, h3, h4]
          · rw [if_neg h4]; simp [h1, h2, h3, h4]
        · rw [if_neg h3]
          by_cases h4 : jsTruthyStr q.comment = true
          · rw [if_pos h4]; simp [h1, h2, h3, h4]
          · rw [if_neg h4]; simp [h1, h2, h3, h4]
    · rw [if_neg h1]
      by_cases h2 : jsTruthyNum q.stop_loss = true
      · rw [if_pos h2]
        by_cases h3 : jsTruthyNum q.take_profit = true
        · rw [if_pos h3]
          by_cases h4 : jsTruthyStr q.comment = true
          · rw [if_pos h4]; simp [h1, h2, h3, h4]
          · rw [if_neg h4]; simp [h1, h2, h3, h4]
        · rw [if_neg h3]
          by_cases h4 : jsTruthyStr q.comment = true
          · rw [if_pos h4]; simp [h1, h2, h3, h4]
          · rw [if_neg h4]; simp [h1, h2, h3, h4]
      · rw [if_neg h2]
        by_cases h3 : jsTruthyNum q.take_profit = true
        · rw [if_pos h3]
          by_cases h4 : jsTruthyStr q.comment = true
          · rw [if_pos h4]; simp [h1, h2, h3, h4]
          · rw [if_neg h4]; simp [h1, h2, h3, h4]
        · rw [if_neg h3]
          by_cases h4 : jsTruthyStr q.comment = true
          · rw [if_pos h4]; simp [h1, h2, h3, h4]
          · rw [if_neg h4]; simp [h1, h2, h3, h4]
    -- frame characterization established
  obtain ⟨hp, hs, ht, hc⟩ := hframe p
  obtain ⟨hp0, hs0, ht0, hc0⟩ := hframe { p with stop_loss := some 0 }
  obtain ⟨hp1, hs1, ht1, hc1⟩ := hframe { p with take_profit := some 0 }
  obtain ⟨hp2, hs2, ht2, hc2⟩ := hframe { p with order_type := some .market }
  refine ⟨?_, ?_, ?_, ?_, ?_, ?_, ?_, ?_⟩
  · intro hsome
    rw [hp] at hsome
    by_cases h : jsTruthyNum p.price && !(p.order_type == some .market)
    · exact (Bool.and_elim_left h)
    · rw [if_neg h] at hsome; exact absurd hsome (by simp)
  · intro hsome
    rw [hs] at hsome
    by_cases h : jsTruthyNum p.stop_loss = true
    · exact h
    · rw [if_neg h] at hsome; exact absurd hsome (by simp)
  · intro hsome
    rw [ht] at hsome
    by_cases h : jsTruthyNum p.take_profit = true
    · exact h
    · rw [if_neg h] at hsome; exact absurd hsome (by simp)
  · intro hsome
    rw [hc] at hsome
    by_cases h : jsTruthyStr p.comment = true
    · exact h
    · rw [if_neg h] at hsome; exact absurd hsome (by simp)
  · rw [hs0]; simp [jsTruthyNum]
  · rw [ht1]; simp [jsTruthyNum]
  · rw [hp2]; simp
  · simp [mt5ModifyRequest]

/-- Witness for C9 at a concrete market order with zero stop-loss /
take-profit and a provided price. -/
theorem mt5_new_order_truthy_fields_witness :
    ((mt5NewOrderRequest
        { login := "MT12345", symbol := "EURUSD", volume := 1 / 100,
          action := .buy, order_type := some .market, price := some 2,
          stop_loss := some 0, take_profit := some 0, comment := none }).price.isSome →
      jsTruthyNum (some 2) = true)
    ∧ ((mt5NewOrderRequest
        { login := "MT12345", symbol := "EURUSD", volume := 1 / 100,
          action := .buy, order_type := some .market, price := some 2,
          stop_loss := some 0, take_profit := some 0, comment := none }).stop_loss.isSome →
      jsTruthyNum (some 0) = true)
    ∧ ((mt5NewOrderRequest
        { login := "MT12345", symbol := "EURUSD", volume := 1 / 100,
          action := .buy, order_type := some .market, price := some 2,
          stop_loss := some 0, take_profit := some 0, comment := none }).take_profit.isSome →
      jsTruthyNum (some 0) = true)
    ∧ ((mt5NewOrderRequest
        { login := "MT12345", symbol := "EURUSD", volume := 1 / 100,
          action := .buy, order_type := some .market, price := some 2,
          stop_loss := some 0, take_profit := some 0, comment := none }).comment.isSome →
      jsTruthyStr none = true)
    ∧ (mt5NewOrderRequest
        { login := "MT12345", symbol := "EURUSD", volume := 1 / 100,
          action := .buy, order_type := some .market, price := some 2,
          stop_loss := some 0, take_profit := some 0, comment := none }).stop_loss = none
    ∧ (mt5NewOrderRequest
        { login := "MT12345", symbol := "EURUSD", volume := 1 / 100,
          action := .buy, order_type := some .market, price := some 2,
          stop_loss := some 0, take_profit := some 0, comment := none }).take_profit = none
    ∧ (mt5NewOrderRequest
        { login := "MT12345", symbol := "EURUSD", volume := 1 / 100,
          action := .buy, order_type := some .market, price := some 2,
          stop_loss := some 0, take_profit := some 0, comment := none }).price = none
    ∧ (mt5ModifyRequest
        { login := "MT12345", ticket := 1, stop_loss := some 0,
          take_profit := none }).stop_loss = some 0 := by
  have h := mt5_new_order_truthy_fields
    { login := "MT12345", symbol := "EURUSD", volume := 1 / 100,
      action := .buy, order_type := some .market, price := some 2,
      stop_loss := some 0, take_profit := some 0, comment := none }
  obtain ⟨h1, h2, h3, h4, h5, h6, h7, h8⟩ := h
  refine ⟨h1, h2, h3, h4, ?_, ?_, ?_, h8⟩
  · simpa using h5
  · simpa using h6
  · simpa using h7

end DerivTrading
